import Mathlib

/-!
# Verification of the SLI Recorder process-supervision core

Shallow embedding of the `sli_recorder` package: the `Recorder` session
supervisor (`recorder.py`), the time formatting helper (`log.py`) and the
dry-run command printer (`cli.py`).  Paths are modelled as strings (Python
`str(path)` is the identity on the modelled representation), OS processes as
handles carrying an optional exit code, and every externally visible action
(process control, logging) as an element of an explicit event trace.
Nondeterminism of the outside world (exit codes, timeouts, handle errors,
the file system) is an explicit environment argument.
-/

namespace SliRecorder

/-- The two supervised processes (`recorder.py` attributes `_dump_process`
and `_ffmpeg_process`). -/
inductive PName where
  | dump
  | ffmpeg
deriving DecidableEq, Repr

/-- Observable actions the supervisor performs: process operations and log
emissions, in program order. -/
inductive Event where
  /-- `proc.wait()` with no timeout. -/
  | waitBlock (p : PName)
  /-- `proc.wait(timeout=t)`. -/
  | waitTimeout (p : PName) (t : Nat)
  /-- `proc.terminate()`. -/
  | terminate (p : PName)
  /-- `proc.kill()`. -/
  | kill (p : PName)
  /-- `proc.send_signal(s)`. -/
  | sendSignal (p : PName) (s : Nat)
  /-- `Popen(cmd, ...)`. -/
  | spawn (p : PName) (cmd : List String)
  /-- `self._dump_process.stdout.close()`. -/
  | closeDumpStdout
  /-- `time.sleep` of the given milliseconds. -/
  | sleepMs (n : Nat)
  /-- `proc.poll()`. -/
  | poll (p : PName)
  /-- `logger.debug(m)`. -/
  | logDebug (m : String)
  /-- `logger.info(m)`. -/
  | logInfo (m : String)
  /-- `logger.error(m)`. -/
  | logError (m : String)
deriving DecidableEq, Repr

/-- `types.py` `RecorderConfig`: the immutable configuration dataclass.
`Path` fields are modelled as strings. -/
structure RecorderConfig where
  outdir : String
  bitrate : String
  max_seconds : Int
  dump_bin : String
  ffmpeg_bin : String
  overwrite : Bool
  verbose : Bool
  title : Option String
deriving DecidableEq, Repr

/-- An OS process handle (`subprocess.Popen`): its exit code observation
(`returncode`, `None` while running) and whether a stdout pipe handle is
attached. -/
structure Proc where
  returncode : Option Int
  stdout : Bool
deriving DecidableEq, Repr

/-- `recorder.py` `RecordingError`: the single error type the supervisor
raises, carrying its message. -/
structure RecordingError where
  msg : String
deriving DecidableEq, Repr

/-- The mutable attributes of a `Recorder` instance (`recorder.py`
`__init__`). -/
structure RecorderState where
  config : RecorderConfig
  output_path : String
  dump_process : Option Proc
  ffmpeg_process : Option Proc
  start_time : Option Int
  stop_requested : Bool
deriving DecidableEq, Repr

/-- `log.py` helper for zero padding: Python `"%02d" % n` on a
nonnegative value. -/
def pad2 (n : Nat) : String :=
  if n < 10 then "0" ++ toString n else toString n

/-- `log.py` `format_elapsed_time`: HH:MM:SS via
`divmod(seconds, 3600)` and `divmod(remainder, 60)`. -/
def format_elapsed_time (seconds : Nat) : String :=
  let hours := seconds / 3600
  let remainder := seconds % 3600
  let minutes := remainder / 60
  let secs := remainder % 60
  pad2 hours ++ ":" ++ pad2 minutes ++ ":" ++ pad2 secs

/-- `log.py` `log_process_result` (no stderr at the call sites inside
`Recorder.wait`). -/
def log_process_result (process_name : String) (return_code : Int) : Event :=
  if return_code = 0 then
    Event.logDebug (process_name ++ " completed successfully")
  else
    Event.logError (process_name ++ " failed with return code " ++ toString return_code)

/-- `log.py` `log_command`. -/
def log_command (cmd : List String) : Event :=
  Event.logDebug ("Executing: " ++ String.intercalate " " cmd)

/-- The ffmpeg argument list built inside `Recorder._start_ffmpeg_process`
(recorder.py lines 160-174). -/
def start_ffmpeg_cmd (config : RecorderConfig) (output_path : String) : List String :=
  [config.ffmpeg_bin,
   "-hide_banner",
   "-loglevel", "error",
   "-f", "s16le",
   "-ar", "24000",
   "-ac", "2",
   "-i", "pipe:0",
   "-c:a", "libmp3lame",
   "-b:a", config.bitrate,
   "-vn",
   "-sn",
   "-t", toString config.max_seconds,
   output_path]

/-- The ffmpeg argument list built inside `cli.py` `_print_dry_run`
(cli.py lines 194-208). -/
def dry_run_ffmpeg_cmd (config : RecorderConfig) (output_path : String) : List String :=
  [config.ffmpeg_bin,
   "-hide_banner",
   "-loglevel", "error",
   "-f", "s16le",
   "-ar", "24000",
   "-ac", "2",
   "-i", "pipe:0",
   "-c:a", "libmp3lame",
   "-b:a", config.bitrate,
   "-vn",
   "-sn",
   "-t", toString config.max_seconds,
   output_path]

/-- Environment for one run of `Recorder._cleanup_processes`: for each
process, whether its `terminate()` (or the following bounded wait) raises a
non-timeout exception, whether the 5-second wait times out, and the exit
code it is eventually reaped with. -/
structure CleanupEnv where
  ffmpeg_terminate_raises : Bool
  ffmpeg_wait_timeout : Bool
  ffmpeg_exit : Int
  dump_terminate_raises : Bool
  dump_wait_timeout : Bool
  dump_exit : Int
deriving DecidableEq, Repr

/-- One iteration of the loop in `Recorder._cleanup_processes`
(recorder.py lines 219-233): skip absent or already-exited processes;
otherwise terminate, wait up to 5 s, on timeout kill and wait again; any
other exception is caught and logged at debug severity. -/
def cleanup_one (name : String) (p : PName) (proc : Option Proc)
    (term_raises timeout : Bool) (exit_code : Int) : Option Proc × List Event :=
  match proc with
  | none => (none, [])
  | some pr =>
    match pr.returncode with
    | some _ => (some pr, [])
    | none =>
      if term_raises then
        (some pr,
         [Event.logDebug ("Terminating " ++ name), Event.terminate p,
          Event.logDebug ("Error cleaning up " ++ name)])
      else if timeout then
        (some { pr with returncode := some exit_code },
         [Event.logDebug ("Terminating " ++ name), Event.terminate p,
          Event.waitTimeout p 5,
          Event.logDebug ("Killing " ++ name ++ " after timeout"),
          Event.kill p, Event.waitBlock p])
      else
        (some { pr with returncode := some exit_code },
         [Event.logDebug ("Terminating " ++ name), Event.terminate p,
          Event.waitTimeout p 5])

/-- `Recorder._cleanup_processes`: iterates over ffmpeg first, then
SystemAudioDump, exactly as the source list literal orders them. -/
def cleanup_processes (r : RecorderState) (env : CleanupEnv) :
    RecorderState × List Event :=
  let f := cleanup_one "ffmpeg" PName.ffmpeg r.ffmpeg_process
    env.ffmpeg_terminate_raises env.ffmpeg_wait_timeout env.ffmpeg_exit
  let d := cleanup_one "SystemAudioDump" PName.dump r.dump_process
    env.dump_terminate_raises env.dump_wait_timeout env.dump_exit
  ({ r with ffmpeg_process := f.1, dump_process := d.1 }, f.2 ++ d.2)

/-- Environment for one call of `Recorder.wait`: the code ffmpeg exits
with, the behaviour of the capture-process cleanup (handle error, 5-second
timeout, eventual exit code), the file system at the artifact check, the
elapsed wall-clock seconds, and the environment of any `_cleanup_processes`
run on the exception path. -/
structure WaitEnv where
  ffmpeg_exit : Int
  dump_terminate_raises : Bool
  dump_terminate_err : String
  dump_wait_timeout : Bool
  dump_exit : Int
  output_exists : Bool
  output_size : Nat
  elapsed : Nat
  cleanup : CleanupEnv
deriving DecidableEq, Repr

/-- The logging block of `Recorder.wait` after the capture cleanup
(recorder.py lines 89-101): both processes' results (the capture one with
`returncode or 0`) and the stop-reason message chosen from the
stop-requested flag. -/
def wait_log_events (r : RecorderState) (env : WaitEnv) (dp1 : Option Proc) :
    List Event :=
  (match dp1 with
   | some d => [log_process_result "SystemAudioDump" (d.returncode.getD 0)]
   | none => [])
  ++ [log_process_result "ffmpeg" env.ffmpeg_exit]
  ++ [if r.stop_requested then
        Event.logInfo ("Recording stopped by user after " ++ format_elapsed_time env.elapsed)
      else
        Event.logInfo ("Recording completed after " ++ format_elapsed_time env.elapsed)]

/-- The tail of `Recorder.wait` after the capture-process cleanup
(recorder.py lines 89-110): result logging, stop-reason message, artifact
check, size report, return of the ffmpeg exit code. -/
def Recorder.wait_post (r : RecorderState) (env : WaitEnv)
    (r2 : RecorderState) (dp1 : Option Proc) (evs : List Event) :
    Except RecordingError Int × RecorderState × List Event :=
  let logevs : List Event := wait_log_events r env dp1
  if env.output_exists then
    (Except.ok env.ffmpeg_exit, r2,
     evs ++ logevs ++
       [Event.logInfo ("Saved " ++ toString env.output_size ++ " bytes to: " ++ r.output_path)])
  else
    let c := cleanup_processes r2 env.cleanup
    (Except.error ⟨"Recording failed: Output file was not created"⟩,
     c.1, evs ++ logevs ++ c.2)

/-- `Recorder.wait` (recorder.py lines 70-114).  Returns the result
(`Except` models raising `RecordingError`), the state of the recorder's
attributes afterwards, and the trace of process operations and log calls.
Any exception inside the `try` block triggers `_cleanup_processes` and is
re-raised wrapped as `RecordingError("Recording failed: ...")`. -/
def Recorder.wait (r : RecorderState) (env : WaitEnv) :
    Except RecordingError Int × RecorderState × List Event :=
  match r.ffmpeg_process with
  | none => (Except.error ⟨"Recording not started"⟩, r, [])
  | some fp =>
    let fp1 : Proc := { fp with returncode := some env.ffmpeg_exit }
    let r1 : RecorderState := { r with ffmpeg_process := some fp1 }
    let ev1 : List Event := [Event.waitBlock PName.ffmpeg]
    match r.dump_process with
    | some dp =>
      match dp.returncode with
      | none =>
        if env.dump_terminate_raises then
          let c := cleanup_processes r1 env.cleanup
          (Except.error ⟨"Recording failed: " ++ env.dump_terminate_err⟩,
           c.1, ev1 ++ [Event.terminate PName.dump] ++ c.2)
        else
          let devs : List Event :=
            if env.dump_wait_timeout then
              [Event.terminate PName.dump, Event.waitTimeout PName.dump 5,
               Event.logDebug "SystemAudioDump did not terminate gracefully, killing",
               Event.kill PName.dump, Event.waitBlock PName.dump]
            else
              [Event.terminate PName.dump, Event.waitTimeout PName.dump 5]
          let dp1 : Proc := { dp with returncode := some env.dump_exit }
          Recorder.wait_post r env { r1 with dump_process := some dp1 }
            (some dp1) (ev1 ++ devs)
      | some _ =>
        Recorder.wait_post r env r1 (some dp) ev1
    | none =>
      Recorder.wait_post r env r1 none ev1

/-- `Recorder.stop_gracefully` (recorder.py lines 116-123): set the
stop-requested flag, and if the ffmpeg process exists and has not exited,
send it SIGINT (signal number 2). -/
def Recorder.stop_gracefully (r : RecorderState) : RecorderState × List Event :=
  let r1 : RecorderState := { r with stop_requested := true }
  match r.ffmpeg_process with
  | some fp =>
    match fp.returncode with
    | none =>
      (r1, [Event.logDebug "Sending SIGINT to ffmpeg for graceful shutdown",
            Event.sendSignal PName.ffmpeg 2])
    | some _ => (r1, [])
  | none => (r1, [])

/-- `Recorder.is_running` (recorder.py lines 125-131). -/
def Recorder.is_running (r : RecorderState) : Bool :=
  match r.ffmpeg_process with
  | some fp => fp.returncode.isNone
  | none => false

/-- Environment for `Recorder._start_ffmpeg_process`: whether the 100 ms
post-spawn poll observes ffmpeg already exited (and with which code), and
the captured stderr text in that case. -/
structure LaunchEnv where
  ffmpeg_immediate_exit : Option Int
  ffmpeg_stderr : String
deriving DecidableEq, Repr

/-- `Recorder._start_ffmpeg_process` (recorder.py lines 155-196): guard on
the dump process and its stdout pipe, build the command, spawn ffmpeg with
stdin bound to the dump stdout, close the supervisor's own reference to
that stream, sleep 100 ms, poll, and fail if ffmpeg already exited. -/
def Recorder.start_ffmpeg_process (r : RecorderState) (env : LaunchEnv) :
    Except RecordingError Unit × RecorderState × List Event :=
  match r.dump_process with
  | none => (Except.error ⟨"Dump process not available"⟩, r, [])
  | some dp =>
    if dp.stdout then
      let cmd := start_ffmpeg_cmd r.config r.output_path
      let ev0 : List Event :=
        [log_command cmd, Event.spawn PName.ffmpeg cmd,
         Event.closeDumpStdout, Event.sleepMs 100, Event.poll PName.ffmpeg]
      let dp1 : Proc := { dp with stdout := false }
      match env.ffmpeg_immediate_exit with
      | some code =>
        (Except.error ⟨"ffmpeg failed to start (exit code " ++ toString code ++ "): "
            ++ env.ffmpeg_stderr⟩,
         { r with dump_process := some dp1,
                  ffmpeg_process := some { returncode := some code, stdout := true } },
         ev0)
      | none =>
        (Except.ok (),
         { r with dump_process := some dp1,
                  ffmpeg_process := some { returncode := none, stdout := true } },
         ev0)
    else (Except.error ⟨"Dump process not available"⟩, r, [])

/-- One per-second observation made by the status-reporter thread: the
values of `is_running`, `_stop_requested` and the computed elapsed seconds
at that iteration. -/
structure Tick where
  is_running : Bool
  stop_requested : Bool
  elapsed : Nat
deriving DecidableEq, Repr

/-- The status line logged by `Recorder._status_reporter`. -/
def status_line (elapsed : Nat) : Event :=
  Event.logInfo (format_elapsed_time elapsed ++ " recording… press Ctrl+C to stop")

/-- The loop body of `Recorder._status_reporter` (recorder.py lines
203-210), one `Tick` per iteration; the `time.sleep(1)` separating
iterations is abstracted into the once-per-second tick sequence. -/
def status_reporter_loop : List Tick → List Event
  | [] => []
  | t :: rest =>
    if t.is_running && !t.stop_requested then
      (if 0 < t.elapsed ∧ t.elapsed % 30 = 0 then [status_line t.elapsed] else [])
        ++ status_reporter_loop rest
    else []

/-- Python truthiness of `self._start_time` in the guard of
`_status_reporter`: falsy when `None` or exactly zero. -/
def truthy_start_time : Option Int → Bool
  | none => false
  | some t => t != 0

/-- `Recorder._status_reporter` (recorder.py lines 198-210): returns the
recorder state (the thread performs no writes to it) together with the
emitted log events. -/
def Recorder.status_reporter (r : RecorderState) (ticks : List Tick) :
    RecorderState × List Event :=
  if truthy_start_time r.start_time then (r, status_reporter_loop ticks)
  else (r, [])

/-! ## Concrete fixtures used by witnesses and counterexamples -/

/-- A concrete configuration matching the CLI defaults. -/
def cfg0 : RecorderConfig :=
  { outdir := "recordings", bitrate := "160k", max_seconds := 9000,
    dump_bin := "SystemAudioDump", ffmpeg_bin := "ffmpeg",
    overwrite := false, verbose := false, title := none }

/-- A process handle that has not exited. -/
def procRunning : Proc := { returncode := none, stdout := true }

/-- A recorder after a successful `start()`: both processes running. -/
def rRun : RecorderState :=
  { config := cfg0, output_path := "recordings/out.mp3",
    dump_process := some procRunning, ffmpeg_process := some procRunning,
    start_time := some 100, stop_requested := false }

/-- A recorder on which `start()` has not run: no process handles. -/
def rNotStarted : RecorderState :=
  { config := cfg0, output_path := "recordings/out.mp3",
    dump_process := none, ffmpeg_process := none,
    start_time := none, stop_requested := false }

/-- A recorder with only the capture process started (the state seen by
`_start_ffmpeg_process`). -/
def rDumpOnly : RecorderState :=
  { config := cfg0, output_path := "recordings/out.mp3",
    dump_process := some procRunning, ffmpeg_process := none,
    start_time := none, stop_requested := false }

/-- A benign cleanup environment: nothing raises, nothing times out. -/
def cenv0 : CleanupEnv :=
  { ffmpeg_terminate_raises := false, ffmpeg_wait_timeout := false,
    ffmpeg_exit := 0, dump_terminate_raises := false,
    dump_wait_timeout := false, dump_exit := 0 }

/-- A benign wait environment: clean exits, artifact present. -/
def wenv0 : WaitEnv :=
  { ffmpeg_exit := 0, dump_terminate_raises := false,
    dump_terminate_err := "boom", dump_wait_timeout := false, dump_exit := 0,
    output_exists := true, output_size := 5, elapsed := 42, cleanup := cenv0 }

/-- A wait environment in which the capture handle's `terminate()` raises
while the artifact is present on disk. -/
def wenvRaise : WaitEnv :=
  { wenv0 with dump_terminate_raises := true, output_exists := true }

/-- A wait environment with a non-zero encoder exit code and a raising
capture handle, artifact present. -/
def wenvC7 : WaitEnv :=
  { ffmpeg_exit := 7, dump_terminate_raises := true,
    dump_terminate_err := "handle error", dump_wait_timeout := false,
    dump_exit := 0, output_exists := true, output_size := 9, elapsed := 60,
    cleanup := cenv0 }

/-- A wait environment in which the capture process ignores `terminate()`
for more than 5 seconds. -/
def wenvTimeout : WaitEnv := { wenv0 with dump_wait_timeout := true }

/-- A launch environment in which ffmpeg survives the post-spawn poll. -/
def lenv0 : LaunchEnv := { ffmpeg_immediate_exit := none, ffmpeg_stderr := "" }

/-- The concrete launch trace of `_start_ffmpeg_process` on `rDumpOnly`. -/
def launchTrace0 : List Event := (Recorder.start_ffmpeg_process rDumpOnly lenv0).2.2

/-- A concrete tick sequence: two positive multiples of 30 inside the
active prefix, then a tick with `is_running = false`, then one more. -/
def ticks0 : List Tick :=
  [⟨true, false, 29⟩, ⟨true, false, 30⟩, ⟨true, false, 60⟩,
   ⟨false, false, 61⟩, ⟨true, false, 90⟩]

/-! ## Helper predicates and lemmas -/

/-- Process operations addressed to the capture (dump) process. -/
def is_dump_op : Event → Bool
  | Event.waitBlock PName.dump => true
  | Event.waitTimeout PName.dump _ => true
  | Event.terminate PName.dump => true
  | Event.kill PName.dump => true
  | Event.sendSignal PName.dump _ => true
  | _ => false

lemma is_dump_op_log_process_result (n : String) (c : Int) :
    is_dump_op (log_process_result n c) = false := by
  unfold log_process_result
  split <;> rfl

lemma is_dump_op_logInfo (m : String) : is_dump_op (Event.logInfo m) = false := rfl

lemma is_dump_op_logDebug (m : String) : is_dump_op (Event.logDebug m) = false := rfl

lemma cleanup_processes_stop_requested (r : RecorderState) (env : CleanupEnv) :
    ((cleanup_processes r env).1).stop_requested = r.stop_requested := by
  simp [cleanup_processes]

lemma status_reporter_loop_eq (ticks : List Tick) :
    status_reporter_loop ticks =
      ((ticks.takeWhile fun t => t.is_running && !t.stop_requested).filter
        fun t => decide (0 < t.elapsed) && decide (t.elapsed % 30 = 0)).map
        (fun t => status_line t.elapsed) := by
  induction ticks with
  | nil => rfl
  | cons t rest ih =>
    by_cases hact : (t.is_running && !t.stop_requested) = true
    · by_cases hmul : 0 < t.elapsed ∧ t.elapsed % 30 = 0
      · simp [status_reporter_loop, hact, hmul, List.takeWhile_cons, ih,
          hmul.1, hmul.2]
      · rw [Decidable.not_and_iff_or_not] at hmul
        rcases hmul with hmul | hmul <;>
          simp [status_reporter_loop, hact, List.takeWhile_cons, ih, hmul]
    · simp [status_reporter_loop, hact, List.takeWhile_cons]

lemma format_elapsed_time_hms (h m s : Nat) (hm : m < 60) (hs : s < 60) :
    format_elapsed_time (h * 3600 + m * 60 + s) =
      pad2 h ++ ":" ++ pad2 m ++ ":" ++ pad2 s := by
  have h1 : (h * 3600 + m * 60 + s) / 3600 = h := by omega
  have h2 : (h * 3600 + m * 60 + s) % 3600 / 60 = m := by omega
  have h3 : (h * 3600 + m * 60 + s) % 3600 % 60 = s := by omega
  simp only [format_elapsed_time, h1, h2, h3]

lemma wait_post_result (r : RecorderState) (env : WaitEnv)
    (r2 : RecorderState) (dp1 : Option Proc) (evs : List Event) :
    (Recorder.wait_post r env r2 dp1 evs).1 =
      (if env.output_exists then Except.ok env.ffmpeg_exit
       else Except.error ⟨"Recording failed: Output file was not created"⟩) := by
  unfold Recorder.wait_post
  by_cases ho : env.output_exists <;> simp [ho]

lemma wait_result_eq (r : RecorderState) (env : WaitEnv) (fp : Proc)
    (hf : r.ffmpeg_process = some fp)
    (hok : env.dump_terminate_raises = false) :
    (Recorder.wait r env).1 =
      (if env.output_exists then Except.ok env.ffmpeg_exit
       else Except.error ⟨"Recording failed: Output file was not created"⟩) := by
  rcases hd : r.dump_process with _ | dp
  · simp only [Recorder.wait, hf, hd]
    exact wait_post_result ..
  · rcases hc : dp.returncode with _ | c
    · simp only [Recorder.wait, hf, hd, hc, hok, Bool.false_eq_true, if_false]
      exact wait_post_result ..
    · simp only [Recorder.wait, hf, hd, hc]
      exact wait_post_result ..

lemma wait_stop_requested (r : RecorderState) (env : WaitEnv) :
    ((Recorder.wait r env).2.1).stop_requested = r.stop_requested := by
  have hpost : ∀ r2 dp1 evs, r2.stop_requested = r.stop_requested →
      ((Recorder.wait_post r env r2 dp1 evs).2.1).stop_requested = r.stop_requested := by
    intro r2 dp1 evs h2
    unfold Recorder.wait_post
    by_cases ho : env.output_exists <;>
      simp [ho, cleanup_processes_stop_requested, h2]
  rcases hf : r.ffmpeg_process with _ | fp
  · simp only [Recorder.wait, hf]
  · rcases hd : r.dump_process with _ | dp
    · simp only [Recorder.wait, hf, hd]
      exact hpost _ _ _ rfl
    · rcases hc : dp.returncode with _ | c
      · by_cases ht : env.dump_terminate_raises
        · simp only [Recorder.wait, hf, hd, hc, ht, if_true]
          exact cleanup_processes_stop_requested ..
        · simp only [Recorder.wait, hf, hd, hc, ht, Bool.false_eq_true, if_false]
          exact hpost _ _ _ rfl
      · simp only [Recorder.wait, hf, hd, hc]
        exact hpost _ _ _ rfl

lemma stop_gracefully_state (r : RecorderState) :
    (Recorder.stop_gracefully r).1 = { r with stop_requested := true } := by
  rcases hf : r.ffmpeg_process with _ | fp
  · simp [Recorder.stop_gracefully, hf]
  · rcases hc : fp.returncode with _ | c <;>
      simp [Recorder.stop_gracefully, hf, hc]

lemma stop_gracefully_events_eq (r r' : RecorderState)
    (h : r.ffmpeg_process = r'.ffmpeg_process) :
    (Recorder.stop_gracefully r).2 = (Recorder.stop_gracefully r').2 := by
  rcases hf : r'.ffmpeg_process with _ | fp
  · rw [hf] at h
    simp [Recorder.stop_gracefully, h, hf]
  · rw [hf] at h
    rcases hc : fp.returncode with _ | c <;>
      simp [Recorder.stop_gracefully, h, hf, hc]

lemma filter_dump_cleanup_ffmpeg (proc : Option Proc) (a b : Bool) (c : Int) :
    ((cleanup_one "ffmpeg" PName.ffmpeg proc a b c).2).filter is_dump_op = [] := by
  rcases proc with _ | pr
  · rfl
  · rcases hc : pr.returncode with _ | c'
    · by_cases ha : a <;> by_cases hb : b <;>
        simp [cleanup_one, hc, ha, hb, is_dump_op]
    · simp [cleanup_one, hc]

lemma filter_dump_cleanup_processes (r2 : RecorderState) (env2 : CleanupEnv)
    (d : Proc) (c : Int)
    (h2 : r2.dump_process = some d) (hc : d.returncode = some c) :
    ((cleanup_processes r2 env2).2).filter is_dump_op = [] := by
  unfold cleanup_processes
  simp only [h2, List.filter_append, filter_dump_cleanup_ffmpeg, List.nil_append]
  simp [cleanup_one, hc]

lemma filter_dump_wait_log_events (r : RecorderState) (env : WaitEnv)
    (dp1 : Option Proc) :
    (wait_log_events r env dp1).filter is_dump_op = [] := by
  unfold wait_log_events
  rcases dp1 with _ | d <;> by_cases hr : r.stop_requested <;>
    simp [hr, List.filter_append, is_dump_op_log_process_result,
      is_dump_op_logInfo]

lemma wait_post_filter_dump (r : RecorderState) (env : WaitEnv)
    (r2 : RecorderState) (dp1 : Option Proc) (evs : List Event) (d : Proc) (c : Int)
    (h2 : r2.dump_process = some d) (hc : d.returncode = some c) :
    ((Recorder.wait_post r env r2 dp1 evs).2.2).filter is_dump_op =
      evs.filter is_dump_op := by
  unfold Recorder.wait_post
  by_cases ho : env.output_exists <;>
    simp [ho, List.filter_append, filter_dump_wait_log_events,
      filter_dump_cleanup_processes r2 env.cleanup d c h2 hc,
      is_dump_op_logInfo]

lemma wait_trace_eq (r : RecorderState) (env : WaitEnv) (fp dp : Proc)
    (hf : r.ffmpeg_process = some fp)
    (hd : r.dump_process = some dp)
    (hrun : dp.returncode = none)
    (hok : env.dump_terminate_raises = false) :
    (Recorder.wait r env).2.2 =
      [Event.waitBlock PName.ffmpeg] ++
      (if env.dump_wait_timeout then
        [Event.terminate PName.dump, Event.waitTimeout PName.dump 5,
         Event.logDebug "SystemAudioDump did not terminate gracefully, killing",
         Event.kill PName.dump, Event.waitBlock PName.dump]
       else
        [Event.terminate PName.dump, Event.waitTimeout PName.dump 5]) ++
      wait_log_events r env (some { dp with returncode := some env.dump_exit }) ++
      (if env.output_exists then
        [Event.logInfo ("Saved " ++ toString env.output_size ++ " bytes to: "
          ++ r.output_path)]
       else []) := by
  simp only [Recorder.wait, hf, hd, hrun, hok, Bool.false_eq_true, if_false]
  unfold Recorder.wait_post
  by_cases ho : env.output_exists <;>
    simp [ho, cleanup_processes, cleanup_one]

/-! ## Claim theorems -/

/-- C2: on a Recorder whose `start()` has not succeeded (no encoder process
handle), `wait()` fails with the precondition error "Recording not
started", performs no process operation at all (its trace is empty) and
leaves the state unchanged. -/
theorem wait_before_start_is_precondition_failure
    (r : RecorderState) (env : WaitEnv) (h : r.ffmpeg_process = none) :
    (Recorder.wait r env).1 = Except.error ⟨"Recording not started"⟩ ∧
    (Recorder.wait r env).2.1 = r ∧
    (Recorder.wait r env).2.2 = [] := by
  simp [Recorder.wait, h]

/-- Witness for C2: the precondition failure on the never-started recorder. -/
theorem wait_before_start_is_precondition_failure_witness :
    (Recorder.wait rNotStarted wenv0).1 = Except.error ⟨"Recording not started"⟩ ∧
    (Recorder.wait rNotStarted wenv0).2.1 = rNotStarted ∧
    (Recorder.wait rNotStarted wenv0).2.2 = [] :=
  wait_before_start_is_precondition_failure rNotStarted wenv0 rfl

/-- C9: the ffmpeg command list printed by the CLI's dry-run mode is
element-for-element equal to the list `Recorder._start_ffmpeg_process`
executes, for every configuration and output path. -/
theorem dry_run_command_equals_executed_command
    (config : RecorderConfig) (output_path : String) :
    dry_run_ffmpeg_cmd config output_path = start_ffmpeg_cmd config output_path :=
  rfl

/-- C10: `stop_gracefully()` on a recorder that is not running (no encoder
handle, or the encoder already exited) sends no signal and performs no
other action: its only effect is setting the stop-requested flag. -/
theorem stop_gracefully_not_running_only_sets_flag
    (r : RecorderState) (h : Recorder.is_running r = false) :
    Recorder.stop_gracefully r = ({ r with stop_requested := true }, []) := by
  unfold Recorder.is_running at h
  unfold Recorder.stop_gracefully
  cases hf : r.ffmpeg_process with
  | none => simp
  | some fp =>
    rw [hf] at h
    cases hc : fp.returncode with
    | none => simp [hc, Option.isNone] at h
    | some c => simp [hc]

/-- Witness for C10: on the never-started recorder, `stop_gracefully`
only sets the flag and emits nothing. -/
theorem stop_gracefully_not_running_only_sets_flag_witness :
    Recorder.stop_gracefully rNotStarted =
      ({ rNotStarted with stop_requested := true }, []) :=
  stop_gracefully_not_running_only_sets_flag rNotStarted rfl

/-- C5: whenever the encoder is launched (capture process present with a
stdout pipe), the spawn carries exactly the fixed argument list: banner
disabled, error-only logging, raw s16le input at 24000 Hz, 2 channels,
input from the pipe, libmp3lame codec, the configured bitrate, no
video/subtitle streams, a duration cap of the configured maximum seconds,
and the resolved output path last. -/
theorem encoder_launched_with_fixed_argument_list
    (r : RecorderState) (env : LaunchEnv) (dp : Proc)
    (hd : r.dump_process = some dp) (hs : dp.stdout = true) :
    ((Recorder.start_ffmpeg_process r env).2.2)[1]? =
      some (Event.spawn PName.ffmpeg
        [r.config.ffmpeg_bin, "-hide_banner", "-loglevel", "error",
         "-f", "s16le", "-ar", "24000", "-ac", "2", "-i", "pipe:0",
         "-c:a", "libmp3lame", "-b:a", r.config.bitrate, "-vn", "-sn",
         "-t", toString r.config.max_seconds, r.output_path]) := by
  cases henv : env.ffmpeg_immediate_exit <;>
    simp [Recorder.start_ffmpeg_process, hd, hs, henv, start_ffmpeg_cmd]

/-- Witness for C5: the spawn event of the concrete launch carries the
fully resolved default command. -/
theorem encoder_launched_with_fixed_argument_list_witness :
    ((Recorder.start_ffmpeg_process rDumpOnly
        { ffmpeg_immediate_exit := none, ffmpeg_stderr := "" }).2.2)[1]? =
      some (Event.spawn PName.ffmpeg
        ["ffmpeg", "-hide_banner", "-loglevel", "error",
         "-f", "s16le", "-ar", "24000", "-ac", "2", "-i", "pipe:0",
         "-c:a", "libmp3lame", "-b:a", "160k", "-vn", "-sn",
         "-t", "9000", "recordings/out.mp3"]) :=
  encoder_launched_with_fixed_argument_list rDumpOnly
    { ffmpeg_immediate_exit := none, ffmpeg_stderr := "" } procRunning rfl rfl

/-- C1: after the encoder's blocking wait (the first event of the trace),
if the capture process has not yet exited, `wait()` issues to it exactly:
a termination request, a wait bounded by 5 seconds, and — only when that
wait times out — a kill followed by a second, unconditional wait. -/
theorem wait_reaps_capture_terminate_then_kill
    (r : RecorderState) (env : WaitEnv) (fp dp : Proc)
    (hf : r.ffmpeg_process = some fp)
    (hd : r.dump_process = some dp)
    (hrun : dp.returncode = none)
    (hok : env.dump_terminate_raises = false) :
    ((Recorder.wait r env).2.2)[0]? = some (Event.waitBlock PName.ffmpeg) ∧
    ((Recorder.wait r env).2.2).filter is_dump_op =
      (if env.dump_wait_timeout then
        [Event.terminate PName.dump, Event.waitTimeout PName.dump 5,
         Event.kill PName.dump, Event.waitBlock PName.dump]
       else
        [Event.terminate PName.dump, Event.waitTimeout PName.dump 5]) := by
  rw [wait_trace_eq r env fp dp hf hd hrun hok]
  constructor
  · simp
  · by_cases ht : env.dump_wait_timeout <;> by_cases ho : env.output_exists <;>
      simp [ht, ho, List.filter_append, filter_dump_wait_log_events, is_dump_op]

/-- Witness for C1: the timed-out branch on a concrete session issues
terminate, bounded wait, kill, then the unconditional wait. -/
theorem wait_reaps_capture_terminate_then_kill_witness :
    ((Recorder.wait rRun wenvTimeout).2.2).filter is_dump_op =
      [Event.terminate PName.dump, Event.waitTimeout PName.dump 5,
       Event.kill PName.dump, Event.waitBlock PName.dump] :=
  (wait_reaps_capture_terminate_then_kill rRun wenvTimeout procRunning procRunning
    rfl rfl rfl rfl).2.trans rfl

/-- C3 counterexample: a handle error while terminating the capture process
makes `wait()` raise even though the output file exists, so "raises iff the
artifact is missing" is false as stated. -/
theorem wait_error_despite_artifact_present :
    wenvRaise.output_exists = true ∧
    (Recorder.wait rRun wenvRaise).1 = Except.error ⟨"Recording failed: boom"⟩ :=
  ⟨rfl, rfl⟩

/-- C3 (amended): provided the capture-process cleanup raises no handle
error, `wait()` (after the encoder exits) fails exactly when the output
file does not exist, and otherwise returns the encoder's exit code
unchanged, even when that code is non-zero. -/
theorem wait_result_decided_by_artifact_check
    (r : RecorderState) (env : WaitEnv) (fp : Proc)
    (hf : r.ffmpeg_process = some fp)
    (hok : env.dump_terminate_raises = false) :
    (Recorder.wait r env).1 =
      (if env.output_exists then Except.ok env.ffmpeg_exit
       else Except.error ⟨"Recording failed: Output file was not created"⟩) :=
  wait_result_eq r env fp hf hok

/-- Witness for C3: a non-zero encoder exit code is returned unchanged when
the artifact exists, and a missing artifact turns into the post-condition
error. -/
theorem wait_result_decided_by_artifact_check_witness :
    (Recorder.wait rRun { wenv0 with ffmpeg_exit := 3 }).1 = Except.ok 3 ∧
    (Recorder.wait rRun { wenv0 with output_exists := false }).1 =
      Except.error ⟨"Recording failed: Output file was not created"⟩ :=
  ⟨by rw [wait_result_decided_by_artifact_check rRun _ procRunning rfl rfl]; rfl,
   by rw [wait_result_decided_by_artifact_check rRun _ procRunning rfl rfl]; rfl⟩

/-- C4: `stop_gracefully()` is idempotent — a second call leaves the state
the first call produced and emits the same observable actions; the call
always sets the stop-requested flag; and the flag is monotone: neither
`wait()` nor the status reporter changes it. -/
theorem stop_gracefully_idempotent_and_monotone
    (r : RecorderState) (env : WaitEnv) (ticks : List Tick) :
    (Recorder.stop_gracefully (Recorder.stop_gracefully r).1).1 =
      (Recorder.stop_gracefully r).1 ∧
    ((Recorder.stop_gracefully r).1).stop_requested = true ∧
    (Recorder.stop_gracefully (Recorder.stop_gracefully r).1).2 =
      (Recorder.stop_gracefully r).2 ∧
    ((Recorder.wait r env).2.1).stop_requested = r.stop_requested ∧
    ((Recorder.status_reporter r ticks).1).stop_requested = r.stop_requested := by
  refine ⟨?_, ?_, ?_, wait_stop_requested r env, ?_⟩
  · rw [stop_gracefully_state, stop_gracefully_state]
  · rw [stop_gracefully_state]
  · exact stop_gracefully_events_eq _ _ (by rw [stop_gracefully_state])
  · unfold Recorder.status_reporter
    split <;> rfl

/-- C6 counterexample: in the concrete launch trace, the supervisor's
reference to the capture stdout is closed strictly before the post-launch
liveness poll of the encoder, refuting "the close happens after the poll". -/
theorem stdout_close_precedes_poll_counterexample :
    Event.closeDumpStdout ∈ launchTrace0 ∧
    Event.poll PName.ffmpeg ∈ launchTrace0 ∧
    launchTrace0.findIdx (fun e => e == Event.closeDumpStdout) <
      launchTrace0.findIdx (fun e => e == Event.poll PName.ffmpeg) := by
  decide

/-- C6 (amended): during launch the capture-stdout reference is closed
immediately after the encoder is spawned and before the 100 ms sleep and
the liveness poll. -/
theorem stdout_closed_after_spawn_before_poll
    (r : RecorderState) (env : LaunchEnv) (dp : Proc)
    (hd : r.dump_process = some dp) (hs : dp.stdout = true) :
    (Recorder.start_ffmpeg_process r env).2.2 =
      [log_command (start_ffmpeg_cmd r.config r.output_path),
       Event.spawn PName.ffmpeg (start_ffmpeg_cmd r.config r.output_path),
       Event.closeDumpStdout, Event.sleepMs 100, Event.poll PName.ffmpeg] := by
  cases henv : env.ffmpeg_immediate_exit <;>
    simp [Recorder.start_ffmpeg_process, hd, hs, henv]

/-- Witness for C6 (amended): the concrete launch trace in full. -/
theorem stdout_closed_after_spawn_before_poll_witness :
    (Recorder.start_ffmpeg_process rDumpOnly lenv0).2.2 =
      [log_command (start_ffmpeg_cmd cfg0 "recordings/out.mp3"),
       Event.spawn PName.ffmpeg (start_ffmpeg_cmd cfg0 "recordings/out.mp3"),
       Event.closeDumpStdout, Event.sleepMs 100, Event.poll PName.ffmpeg] :=
  stdout_closed_after_spawn_before_poll rDumpOnly lenv0 procRunning rfl rfl

/-- C7 counterexample: a capture-handle error during `wait()`'s cleanup
phase is not merely logged — it overrides the primary result: with the
artifact present and the encoder exited with code 7, `wait()` raises
instead of returning 7. -/
theorem cleanup_failure_overrides_primary_result :
    wenvC7.output_exists = true ∧
    (Recorder.wait rRun wenvC7).1 =
      Except.error ⟨"Recording failed: handle error"⟩ ∧
    ¬ ((Recorder.wait rRun wenvC7).1 = Except.ok wenvC7.ffmpeg_exit) := by
  refine ⟨rfl, rfl, ?_⟩
  intro hc
  rw [show (Recorder.wait rRun wenvC7).1 =
      Except.error (RecordingError.mk "Recording failed: handle error") from rfl] at hc
  exact Except.noConfusion hc

/-- C7 (amended): only the 5-second timeout is handled inside `wait()`'s
cleanup phase; any other cleanup failure aborts `wait()`: a full
`_cleanup_processes` pass runs (its own failures are logged at debug
severity and swallowed) and `wait()` fails with a `RecordingError`
wrapping the cleanup failure, overriding the primary result; absent such
a failure the artifact check alone decides the outcome. -/
theorem wait_cleanup_failure_policy
    (r : RecorderState) (env : WaitEnv) (fp dp : Proc)
    (hf : r.ffmpeg_process = some fp)
    (hd : r.dump_process = some dp)
    (hrun : dp.returncode = none) :
    (env.dump_terminate_raises = true →
      (Recorder.wait r env).1 =
        Except.error ⟨"Recording failed: " ++ env.dump_terminate_err⟩ ∧
      (Recorder.wait r env).2.2 =
        [Event.waitBlock PName.ffmpeg, Event.terminate PName.dump] ++
          (cleanup_processes
            { r with ffmpeg_process := some { fp with returncode := some env.ffmpeg_exit } }
            env.cleanup).2) ∧
    (env.dump_terminate_raises = false → env.output_exists = true →
      (Recorder.wait r env).1 = Except.ok env.ffmpeg_exit) := by
  constructor
  · intro ht
    constructor <;> simp [Recorder.wait, hf, hd, hrun, ht]
  · intro ht ho
    rw [wait_result_eq r env fp hf ht]
    simp [ho]

/-- Witness for C7: the raising cleanup overrides the result on a concrete
session, and the benign environment returns the exit code. -/
theorem wait_cleanup_failure_policy_witness :
    (Recorder.wait rRun wenvC7).1 =
      Except.error ⟨"Recording failed: handle error"⟩ ∧
    (Recorder.wait rRun wenv0).1 = Except.ok 0 :=
  ⟨((wait_cleanup_failure_policy rRun wenvC7 procRunning procRunning
      rfl rfl rfl).1 rfl).1,
   (wait_cleanup_failure_policy rRun wenv0 procRunning procRunning
      rfl rfl rfl).2 rfl rfl⟩

/-- C8: with a truthy start time, the status reporter mutates no recorder
state, and its output is exactly one status line per tick of the active
prefix (ticks while `is_running` holds and stop was not requested) whose
elapsed time is a positive multiple of 30; each line carries the elapsed
time rendered by `format_elapsed_time`, which is zero-padded
hours:minutes:seconds. -/
theorem status_reporter_reports_thirty_second_multiples
    (r : RecorderState) (ticks : List Tick)
    (hst : truthy_start_time r.start_time = true) :
    (Recorder.status_reporter r ticks).1 = r ∧
    (Recorder.status_reporter r ticks).2 =
      ((ticks.takeWhile fun t => t.is_running && !t.stop_requested).filter
        fun t => decide (0 < t.elapsed) && decide (t.elapsed % 30 = 0)).map
        (fun t => status_line t.elapsed) ∧
    (∀ hrs mins secs : Nat, mins < 60 → secs < 60 →
      format_elapsed_time (hrs * 3600 + mins * 60 + secs) =
        pad2 hrs ++ ":" ++ pad2 mins ++ ":" ++ pad2 secs) ∧
    (∀ n : Nat, n < 100 → (pad2 n).length = 2) := by
  refine ⟨?_, ?_,
    fun hrs mins secs hm hs => format_elapsed_time_hms hrs mins secs hm hs,
    by decide⟩
  · simp [Recorder.status_reporter, hst]
  · simp [Recorder.status_reporter, hst, status_reporter_loop_eq]

/-- Witness for C8: on a concrete tick sequence the reporter emits exactly
the lines for 30 and 60 seconds and stops at the first inactive tick, and
3725 seconds renders as "01:02:05". -/
theorem status_reporter_reports_thirty_second_multiples_witness :
    (Recorder.status_reporter rRun ticks0).2 = [status_line 30, status_line 60] ∧
    format_elapsed_time 3725 = "01:02:05" := by
  have h := status_reporter_reports_thirty_second_multiples rRun ticks0 rfl
  refine ⟨?_, ?_⟩
  · rw [h.2.1]
    rfl
  · exact (h.2.2.1 1 2 5 (by omega) (by omega)).trans rfl

end SliRecorder
